import Mathlib

/-
Verification of the service-lifecycle supervision core of the lum repository.
The file embeds the OsuMuteService implementation (src/service/osu_mute.rs):
its start and stop lifecycle methods, the background task (split into its
lookup prelude and one loop iteration) and the watchdog continuation.
Collaborating pieces that are not part of the provided sources (the SetLock
write-once cell, the Status enumeration, the ServiceManager registry and the
DiscordService dependency) are modelled from the specification, restricted to
the interfaces this file consumes.
-/

namespace Lum

/-- Modelled from the spec: the setlock module is not among the sources, so
the WriteOnceCell (SetLock) is modelled from section 4.1 of the spec. It holds
Unset or Set of a value; a set succeeds exactly once and a second set fails
with AlreadySet, leaving the stored value untouched. -/
structure SetLock (α : Type) where
  value : Option α
deriving Repr, DecidableEq

/-- Modelled from the spec: SetLock::new returns an empty cell. -/
def SetLock.new {α : Type} : SetLock α := ⟨none⟩

/-- Modelled from the spec: the error raised by a second write into a
WriteOnceCell. -/
inductive SetLockError
  | alreadySet
deriving Repr, DecidableEq

/-- Modelled from the spec: a human readable description of a SetLockError,
used when start interpolates the error into its returned message. -/
def SetLockError.message : SetLockError → String
  | .alreadySet => "SetLock was already set"

/-- Modelled from the spec: SetLock::set succeeds exactly once; on a cell that
already holds a value it fails with AlreadySet and leaves the value
untouched. -/
def SetLock.set {α : Type} (c : SetLock α) (v : α) : Except SetLockError (SetLock α) :=
  match c.value with
  | some _ => .error .alreadySet
  | none => .ok ⟨some v⟩

/-- Modelled from the spec: the ServiceStatus health state of a service. -/
inductive Status
  | notStarted
  | starting
  | started
  | stopping
  | stopped
  | runtimeError (reason : String)
deriving Repr, DecidableEq

/-- Modelled from the spec: the textual rendering of a Status, as produced by
to_string when the task interpolates an observed status into an error. The
exact rendering is not given by the sources; the variant names of the spec are
used. -/
def Status.toText : Status → String
  | .notStarted => "NotStarted"
  | .starting => "Starting"
  | .started => "Started"
  | .stopping => "Stopping"
  | .stopped => "Stopped"
  | .runtimeError reason => "RuntimeError: " ++ reason

/-- Modelled from the spec: the startup priority of a service. -/
inductive Priority
  | critical
  | optional
deriving Repr, DecidableEq

/-- Modelled from the spec: the identity metadata and health state of a
service; status is the only field mutated after construction. -/
structure ServiceInfo where
  id : String
  display_name : String
  priority : Priority
  status : Status
deriving Repr, DecidableEq

/-- Modelled from the spec: ServiceInfo::new builds the metadata with the
initial status NotStarted. -/
def ServiceInfo.new (id : String) (display_name : String) (priority : Priority) : ServiceInfo :=
  ⟨id, display_name, priority, .notStarted⟩

/-- State of the OsuMuteService struct of src/service/osu_mute.rs. The Arc and
RwLock wrappers are elided; the Notify and JoinHandle payloads and the stored
DiscordService handle are modelled as Unit, since only their presence in the
cells is observable; the muted_users HashMap over GuildChannel and Member is
modelled as an association list over opaque keys. -/
structure OsuMuteService where
  info : ServiceInfo
  discord_service : SetLock Unit
  task_notify : SetLock Unit
  task : SetLock Unit
  muted_users : List (Nat × Nat)
deriving Repr, DecidableEq

/-- OsuMuteService::new of the source: fresh cells, empty map, Optional
priority, the literal id and display name. -/
def OsuMuteService.new : OsuMuteService :=
  ⟨ServiceInfo.new "lum_builtin_osu_mute" "osu! Mute" .optional,
   SetLock.new, SetLock.new, SetLock.new, []⟩

/-- Modelled from the spec: the DiscordService dependency viewed through the
interfaces the source consumes: is_available and the status behind
info(). -/
structure DiscordService where
  available : Bool
  status : Status
deriving Repr, DecidableEq

/-- Modelled from the spec: the typed registry of the ServiceManager,
restricted to the two service kinds the source looks up; get_service for a
kind returns the stored entry or None. -/
structure ManagerState where
  discordService : Option DiscordService
  osuMuteService : Option OsuMuteService
deriving Repr, DecidableEq

/-- TaskError of the source. -/
inductive TaskError
  | discordServiceNotFound
  | discordServiceNotAvailable (status : String)
deriving Repr, DecidableEq

/-- The Display implementation for TaskError in the source. -/
def TaskError.message : TaskError → String
  | .discordServiceNotFound => "Discord service not found!"
  | .discordServiceNotAvailable status =>
      "Discord service expected to be available, but it was " ++ status

/-- Result of one call to start, distinguishing success from a returned
error message. -/
inductive StartResult
  | ok
  | err (msg : String)
deriving Repr, DecidableEq

/-- Outcome of start: the returned result, the updated service state, and
whether the background task was spawned before returning. -/
structure StartOutcome where
  result : StartResult
  service : OsuMuteService
  spawned : Bool
deriving Repr, DecidableEq

/-- Embedding of Service::start for OsuMuteService: look up the
DiscordService through the manager, check its availability, write the handle
cell, write the notify cell, spawn the task wrapped by the watchdog, write the
task handle cell; return the first error encountered. The spawn happens
before the task handle cell write, as in the source. -/
def start (service_manager : ManagerState) (self : OsuMuteService) : StartOutcome :=
  match service_manager.discordService with
  | none => ⟨.err "DiscordService not found!", self, false⟩
  | some discord_service =>
    if !discord_service.available then
      ⟨.err "DiscordService is not available!", self, false⟩
    else
      match self.discord_service.set () with
      | .error e =>
          ⟨.err ("Error setting DiscordService SetLock: " ++ e.message), self, false⟩
      | .ok cell1 =>
        let self1 := { self with discord_service := cell1 }
        match self1.task_notify.set () with
        | .error e =>
            ⟨.err ("Error setting Notify SetLock: " ++ e.message), self1, false⟩
        | .ok cell2 =>
          let self2 := { self1 with task_notify := cell2 }
          match self2.task.set () with
          | .error e =>
              ⟨.err ("Error setting Watchdog JoinHandle SetLock: " ++ e.message), self2, true⟩
          | .ok cell3 => ⟨.ok, { self2 with task := cell3 }, true⟩

/-- Outcome of one call to stop: the unwrap on the task handle cell panics
when the cell is unset, otherwise the spawned task is aborted. -/
inductive StopOutcome
  | panicked
  | aborted
deriving Repr, DecidableEq

/-- Embedding of Service::stop for OsuMuteService: self.task.unwrap().abort();
unwrap on an unset cell panics. -/
def stop (self : OsuMuteService) : StopOutcome :=
  match self.task.value with
  | none => .panicked
  | some _ => .aborted

/-- Embedding of the lookup prelude of fn task: the manager lookup of the
OsuMuteService itself; a miss returns TaskError::DiscordServiceNotFound. -/
def taskInit (service_manager : ManagerState) : Except TaskError OsuMuteService :=
  match service_manager.osuMuteService with
  | none => .error .discordServiceNotFound
  | some osu_mute_service => .ok osu_mute_service

/-- Observable outcome of one iteration of the background loop: the tick
action ran, the loop exited with a TaskError, or an unwrap on an unset cell
panicked. -/
inductive IterOutcome
  | tick
  | exited (e : TaskError)
  | panicked
deriving Repr, DecidableEq

/-- Result of one loop iteration: whether the iteration suspended on the wake
signal, and its outcome. -/
structure IterResult where
  waited : Bool
  outcome : IterOutcome
deriving Repr, DecidableEq

/-- Embedding of the tail of a loop iteration of fn task: unwrap the
DiscordService handle cell, read the observed status of the dependency; any
status other than Started exits with DiscordServiceNotAvailable carrying the
rendered status, otherwise the tick action (sleep plus log) runs. -/
def taskCheck (self : OsuMuteService) (discord_service : DiscordService)
    (waited : Bool) : IterResult :=
  match self.discord_service.value with
  | none => ⟨waited, .panicked⟩
  | some _ =>
    if discord_service.status = .started then ⟨waited, .tick⟩
    else ⟨waited, .exited (.discordServiceNotAvailable discord_service.status.toText)⟩

/-- Embedding of one iteration of the loop in fn task: compute
are_users_muted as muted_users.is_empty(), and when NOT are_users_muted
suspend on the notify cell (unwrap panics when the cell is unset) before the
dependency status check; the discord_service argument is the state of the
dependency observed through the stored handle at this iteration. -/
def taskIter (self : OsuMuteService) (discord_service : DiscordService) : IterResult :=
  let are_users_muted := self.muted_users.isEmpty
  if !are_users_muted then
    match self.task_notify.value with
    | none => ⟨false, .panicked⟩
    | some _ => taskCheck self discord_service true
  else
    taskCheck self discord_service false

/-- Embedding of fn watchdog: re-resolve the OsuMuteService through the
manager (a miss panics, modelled as none), then overwrite its status with a
RuntimeError whose reason depends on the task outcome. -/
def watchdog (service_manager : ManagerState) (result : Except TaskError Unit) :
    Option ManagerState :=
  match service_manager.osuMuteService with
  | none => none
  | some osu_mute_service =>
    let reason : String :=
      match result with
      | .ok () => "The background task has stopped unexpectedly."
      | .error error => "The background task has encountered an error: " ++ error.message
    some { service_manager with
      osuMuteService := some { osu_mute_service with
        info := { osu_mute_service.info with status := .runtimeError reason } } }

/-- Boolean test that the first list is a leading segment of the second. -/
def listIsPre {α : Type} [DecidableEq α] : List α → List α → Bool
  | [], _ => true
  | _ :: _, [] => false
  | a :: as, b :: bs => decide (a = b) && listIsPre as bs

/-- Boolean test that the first list occurs contiguously inside the second. -/
def listHasSub {α : Type} [DecidableEq α] (sub : List α) : List α → Bool
  | [] => sub.isEmpty
  | b :: bs => listIsPre sub (b :: bs) || listHasSub sub bs

/-- Boolean test that sub occurs contiguously inside s. -/
def strContains (s sub : String) : Bool := listHasSub sub.data s.data

/-- A service state as it looks right after a successful start: both the
dependency handle cell and the notify cell are set, the map is empty. -/
def startedService : OsuMuteService :=
  { OsuMuteService.new with discord_service := ⟨some ()⟩, task_notify := ⟨some ()⟩ }

/-- The started service state with one tracked work item in muted_users. -/
def startedServiceWithWork : OsuMuteService :=
  { startedService with muted_users := [(1, 1)] }

theorem listIsPre_self {α : Type} [DecidableEq α] (l : List α) : listIsPre l l = true := by
  induction l with
  | nil => rfl
  | cons a as ih => simp [listIsPre, ih]

theorem listHasSub_append {α : Type} [DecidableEq α] (sub pre : List α) :
    listHasSub sub (pre ++ sub) = true := by
  induction pre with
  | nil =>
    cases sub with
    | nil => rfl
    | cons a as => simp [listHasSub, listIsPre_self]
  | cons b bs ih => simp [listHasSub, ih]

theorem strContains_append (pre sub : String) : strContains (pre ++ sub) sub = true := by
  show listHasSub sub.data (pre ++ sub).data = true
  have h : (pre ++ sub).data = pre.data ++ sub.data := rfl
  rw [h]
  exact listHasSub_append sub.data pre.data

/-- C1: for every run of the watchdog continuation in which the task outcome
is a clean return and the owning service is registered in the manager, the
watchdog writes the status of the owning service to RuntimeError with the
message that the background task stopped unexpectedly, leaving the rest of the
manager state intact. -/
theorem watchdog_clean_exit_is_error (m : ManagerState) (svc : OsuMuteService)
    (h : m.osuMuteService = some svc) :
    ∃ m2 svc2, watchdog m (.ok ()) = some m2 ∧ m2.osuMuteService = some svc2 ∧
      svc2.info.status = .runtimeError "The background task has stopped unexpectedly." := by
  unfold watchdog
  rw [h]
  exact ⟨_, _, rfl, rfl, rfl⟩

/-- Witness for C1 at a concrete manager holding a fresh OsuMuteService. -/
theorem watchdog_clean_exit_is_error_witness :
    ∃ m2 svc2, watchdog ⟨none, some OsuMuteService.new⟩ (.ok ()) = some m2 ∧
      m2.osuMuteService = some svc2 ∧
      svc2.info.status = .runtimeError "The background task has stopped unexpectedly." :=
  watchdog_clean_exit_is_error ⟨none, some OsuMuteService.new⟩ OsuMuteService.new rfl

/-- C2: for every run of the watchdog continuation in which the task outcome
is an error, the watchdog writes the status of the owning service to a
RuntimeError whose reason string contains the description of that error. -/
theorem watchdog_error_contains_description (m : ManagerState) (svc : OsuMuteService)
    (e : TaskError) (h : m.osuMuteService = some svc) :
    ∃ m2 svc2 reason, watchdog m (.error e) = some m2 ∧
      m2.osuMuteService = some svc2 ∧
      svc2.info.status = .runtimeError reason ∧
      strContains reason e.message = true := by
  unfold watchdog
  rw [h]
  exact ⟨_, _, _, rfl, rfl, rfl,
    strContains_append "The background task has encountered an error: " e.message⟩

/-- Witness for C2 at a concrete manager and a concrete task error. -/
theorem watchdog_error_contains_description_witness :
    ∃ m2 svc2 reason,
      watchdog ⟨none, some OsuMuteService.new⟩ (.error .discordServiceNotFound) = some m2 ∧
      m2.osuMuteService = some svc2 ∧
      svc2.info.status = .runtimeError reason ∧
      strContains reason TaskError.discordServiceNotFound.message = true :=
  watchdog_error_contains_description ⟨none, some OsuMuteService.new⟩ OsuMuteService.new
    .discordServiceNotFound rfl

/-- C3: evaluation of the loop iteration at the inputs the claim is about.
With an empty muted_users map, both cells set and the dependency Started, the
iteration does NOT suspend on the wake signal and executes its tick action;
with a nonempty map it DOES suspend on the wake signal before ticking. The
code therefore inverts the idle-wait of the claim: are_users_muted is assigned
muted_users.is_empty() and the wait runs when that is false. -/
theorem taskIter_idle_wait_inverted :
    taskIter startedService ⟨true, .started⟩ = ⟨false, .tick⟩ ∧
    taskIter startedServiceWithWork ⟨true, .started⟩ = ⟨true, .tick⟩ :=
  ⟨rfl, rfl⟩

/-- C4: when start runs while the registered DiscordService reports
is_available false, start returns the error message of the source, the service
state (all of its write-once cells included) is unchanged, the task handle
cell stays unset and no background task is spawned. -/
theorem start_unavailable_no_spawn (m : ManagerState) (self : OsuMuteService)
    (ds : DiscordService) (h : m.discordService = some ds) (hav : ds.available = false)
    (htask : self.task.value = none) :
    (start m self).result = .err "DiscordService is not available!" ∧
    (start m self).service = self ∧
    (start m self).service.task.value = none ∧
    (start m self).spawned = false := by
  simp [start, h, hav, htask]

/-- Witness for C4 at a concrete manager holding an unavailable DiscordService
and a fresh OsuMuteService. -/
theorem start_unavailable_no_spawn_witness :
    (start ⟨some ⟨false, .notStarted⟩, none⟩ OsuMuteService.new).result =
      .err "DiscordService is not available!" ∧
    (start ⟨some ⟨false, .notStarted⟩, none⟩ OsuMuteService.new).service =
      OsuMuteService.new ∧
    (start ⟨some ⟨false, .notStarted⟩, none⟩ OsuMuteService.new).service.task.value = none ∧
    (start ⟨some ⟨false, .notStarted⟩, none⟩ OsuMuteService.new).spawned = false :=
  start_unavailable_no_spawn ⟨some ⟨false, .notStarted⟩, none⟩ OsuMuteService.new
    ⟨false, .notStarted⟩ rfl rfl rfl

/-- C5: start returns success exactly when the DiscordService lookup
succeeded, the availability check passed, and every write into the three
write-once cells of the service succeeded, which for a SetLock means each cell
was still unset; otherwise start returns an error. -/
theorem start_ok_iff (m : ManagerState) (self : OsuMuteService) :
    (start m self).result = .ok ↔
      ((∃ ds, m.discordService = some ds ∧ ds.available = true) ∧
       self.discord_service.value = none ∧
       self.task_notify.value = none ∧
       self.task.value = none) := by
  obtain ⟨mds, mos⟩ := m
  obtain ⟨inf, ⟨dv⟩, ⟨nv⟩, ⟨tv⟩, mu⟩ := self
  cases mds with
  | none => simp [start]
  | some ds =>
    cases hav : ds.available <;> cases dv <;> cases nv <;> cases tv <;>
      simp [start, SetLock.set, hav]

/-- C6: in any loop iteration whose cells hold the values a successful start
leaves there, an observed dependency status other than Started makes the task
exit with DiscordServiceNotAvailable carrying the rendered observed status,
and the description of that error contains the rendered observed status. -/
theorem taskIter_dependency_not_started (self : OsuMuteService) (ds : DiscordService)
    (hd : self.discord_service.value = some ()) (hn : self.task_notify.value = some ())
    (hs : ds.status ≠ .started) :
    (taskIter self ds).outcome = .exited (.discordServiceNotAvailable ds.status.toText) ∧
    strContains (TaskError.discordServiceNotAvailable ds.status.toText).message
      ds.status.toText = true := by
  constructor
  · cases he : self.muted_users.isEmpty <;>
      simp [taskIter, taskCheck, he, hn, hd, hs]
  · exact strContains_append "Discord service expected to be available, but it was "
      ds.status.toText

/-- Witness for C6 at the started service state and a Stopped dependency. -/
theorem taskIter_dependency_not_started_witness :
    (taskIter startedService ⟨true, .stopped⟩).outcome =
      .exited (.discordServiceNotAvailable (Status.stopped).toText) ∧
    strContains (TaskError.discordServiceNotAvailable (Status.stopped).toText).message
      (Status.stopped).toText = true :=
  taskIter_dependency_not_started startedService ⟨true, .stopped⟩ rfl rfl (by decide)

/-- C7: a run of the watchdog that finds the owning service registered mutates
only the status field of that service: id, display name, priority, every
write-once cell and the muted_users map are unchanged, and so is the rest of
the manager state. -/
theorem watchdog_frame (m : ManagerState) (svc : OsuMuteService)
    (r : Except TaskError Unit) (h : m.osuMuteService = some svc) :
    ∃ svc2, watchdog m r = some { m with osuMuteService := some svc2 } ∧
      svc2.info.id = svc.info.id ∧
      svc2.info.display_name = svc.info.display_name ∧
      svc2.info.priority = svc.info.priority ∧
      svc2.discord_service = svc.discord_service ∧
      svc2.task_notify = svc.task_notify ∧
      svc2.task = svc.task ∧
      svc2.muted_users = svc.muted_users := by
  unfold watchdog
  rw [h]
  exact ⟨_, rfl, rfl, rfl, rfl, rfl, rfl, rfl, rfl⟩

/-- Witness for C7 at a concrete manager and a concrete error outcome. -/
theorem watchdog_frame_witness :
    ∃ svc2,
      watchdog ⟨none, some OsuMuteService.new⟩
          (.error (.discordServiceNotAvailable "Stopped")) =
        some { (⟨none, some OsuMuteService.new⟩ : ManagerState) with
                 osuMuteService := some svc2 } ∧
      svc2.info.id = OsuMuteService.new.info.id ∧
      svc2.info.display_name = OsuMuteService.new.info.display_name ∧
      svc2.info.priority = OsuMuteService.new.info.priority ∧
      svc2.discord_service = OsuMuteService.new.discord_service ∧
      svc2.task_notify = OsuMuteService.new.task_notify ∧
      svc2.task = OsuMuteService.new.task ∧
      svc2.muted_users = OsuMuteService.new.muted_users :=
  watchdog_frame ⟨none, some OsuMuteService.new⟩ OsuMuteService.new
    (.error (.discordServiceNotAvailable "Stopped")) rfl

/-- C8: a call to stop on a service whose task handle cell was never set
panics through the unwrap on the unset cell rather than returning a
recoverable error. -/
theorem stop_unset_task_panics (self : OsuMuteService) (h : self.task.value = none) :
    stop self = .panicked := by
  unfold stop
  rw [h]

/-- Witness for C8 at a freshly constructed service. -/
theorem stop_unset_task_panics_witness : stop OsuMuteService.new = .panicked :=
  stop_unset_task_panics OsuMuteService.new rfl

/-- C9: when the manager has no OsuMuteService registered, a run of the
watchdog panics: it produces no updated manager state, so no status is
recorded and the task outcome is lost. -/
theorem watchdog_unregistered_panics (m : ManagerState) (r : Except TaskError Unit)
    (h : m.osuMuteService = none) : watchdog m r = none := by
  unfold watchdog
  rw [h]

/-- Witness for C9 at the empty manager and a clean task outcome. -/
theorem watchdog_unregistered_panics_witness :
    watchdog ⟨none, none⟩ (.ok ()) = none :=
  watchdog_unregistered_panics ⟨none, none⟩ (.ok ()) rfl

/-- C10: when the lookup of the OsuMuteService itself fails, the task returns
TaskError::DiscordServiceNotFound, whose description reads exactly
"Discord service not found!", naming the Discord service although the missing
service is the OsuMuteService. -/
theorem taskInit_unregistered_misnamed_error (m : ManagerState)
    (h : m.osuMuteService = none) :
    taskInit m = .error .discordServiceNotFound ∧
    TaskError.discordServiceNotFound.message = "Discord service not found!" := by
  unfold taskInit
  rw [h]
  exact ⟨rfl, rfl⟩

/-- Witness for C10 at the empty manager. -/
theorem taskInit_unregistered_misnamed_error_witness :
    taskInit ⟨none, none⟩ = .error .discordServiceNotFound ∧
    TaskError.discordServiceNotFound.message = "Discord service not found!" :=
  taskInit_unregistered_misnamed_error ⟨none, none⟩ rfl

end Lum
